import Mathlib

/-!
Shallow embedding of `src/notebook/services/kernels/kernelmanager.py`
(the `KernelInterface` / `MappingKernelManager` pair) and proofs about the
claims on its behaviour.

Python dicts keyed by strings are modelled as association lists
(`alookup` / `aset` / `aupdate` / `aerase`), kernel message-client handler
registration is modelled as a list of (channel, handler-id) pairs with
fresh handler ids drawn from a per-kernel counter (each
`partial(buffer_msg, channel)` closure in the source is a distinct
object), and timestamps are integers (seconds).  Coroutines are modelled
as pure state transformers returning `Option Err × state`: a `some`
error models a raised Python exception, the returned state is the state
at the moment the exception propagates.
-/

namespace JupyterKernelManager

/-- Dict lookup: first binding for the key, as in a Python dict. -/
def alookup {α : Type} : List (String × α) → String → Option α
  | [], _ => none
  | (a, b) :: rest, k => if a == k then some b else alookup rest k

/-- Dict membership (`key in d`). -/
def acontains {α : Type} (l : List (String × α)) (k : String) : Bool :=
  (alookup l k).isSome

/-- Dict assignment `d[k] = v`: replace the binding or append a fresh one. -/
def aset {α : Type} : List (String × α) → String → α → List (String × α)
  | [], k, v => [(k, v)]
  | (a, b) :: rest, k, v =>
      if a == k then (k, v) :: rest else (a, b) :: aset rest k v

/-- In-place mutation of the value stored under a key (Python attribute
assignment on the object held in the dict). -/
def aupdate {α : Type} : List (String × α) → String → (α → α) → List (String × α)
  | [], _, _ => []
  | (a, b) :: rest, k, f =>
      if a == k then (a, f b) :: rest else (a, b) :: aupdate rest k f

/-- Dict removal `d.pop(k)`: drop every binding of the key. -/
def aerase {α : Type} (l : List (String × α)) (k : String) : List (String × α) :=
  l.filter (fun p => !(p.1 == k))

/-- The three buffered channels of `KernelInterface.start_buffering`. -/
inductive Channel
  | shell
  | iopub
  | stdin
deriving DecidableEq

/-- Opaque message payload. -/
abbrev Msg := String

/-- The message client (`IOLoopKernelClient`): the handler registrations the
manager code performs on it, plus whether `close()` was called.  A handler is
identified by the id of the closure object registered. -/
structure Client where
  handlers : List (Channel × Nat)
  closed : Bool
deriving DecidableEq

/-- The kernel process handle returned by `kernel_finder.launch`. -/
structure Manager where
  killed : Bool
  cleaned : Bool
  interrupted : Bool
deriving DecidableEq

/-- `KernelInterface`: one kernel session, with exactly the attributes
assigned in `KernelInterface.__init__` (plus the class attribute `client`).
`nextHandlerId` is the supply of fresh closure identities. -/
structure KernelInterface where
  kernel_type : String
  n_connections : Int
  execution_state : String
  last_activity : Option Int
  client : Client
  manager : Manager
  buffer_for_key : Option String
  buffer : List (Channel × Msg)
  buffer_handlers : List (Channel × Nat)
  nextHandlerId : Nat
deriving DecidableEq

/-- The attribute names ever assigned on a `KernelInterface` instance
(`__init__` lines 35-53 of the source, plus the class attribute `client`).
Python attribute access on any other name raises `AttributeError`. -/
def kernelInterfaceAttrs : List String :=
  ["kernel_type", "kernel_finder", "connection_info", "manager",
   "n_connections", "execution_state", "last_activity", "restarter",
   "buffer_for_key", "buffer", "buffer_handlers", "client"]

/-- Whether Python attribute lookup `kernel.<name>` succeeds. -/
def KernelInterface.hasAttr (name : String) : Bool :=
  kernelInterfaceAttrs.contains name

/-- A freshly constructed `KernelInterface` (`__init__`): zero connections,
execution state `starting`, last activity `utcnow()`, no buffering. -/
def freshKernel (kernel_type : String) (now : Int) : KernelInterface :=
  { kernel_type := kernel_type
    n_connections := 0
    execution_state := "starting"
    last_activity := some now
    client := { handlers := [], closed := false }
    manager := { killed := false, cleaned := false, interrupted := false }
    buffer_for_key := none
    buffer := []
    buffer_handlers := []
    nextHandlerId := 0 }

/-- `list.remove(x)` on the client handler list: removes the first equal
element; the `ValueError` raised when absent is swallowed by the caller
(`stop_buffering`), so absence is a no-op here. -/
def removeHandler : List (Channel × Nat) → Channel × Nat → List (Channel × Nat)
  | [], _ => []
  | y :: rest, x => if y == x then rest else y :: removeHandler rest x

/-- `self.buffer_handlers[channel] = handler`: dict assignment keyed by
channel. -/
def chset : List (Channel × Nat) → Channel → Nat → List (Channel × Nat)
  | [], c, v => [(c, v)]
  | (a, b) :: rest, c, v =>
      if a == c then (c, v) :: rest else (a, b) :: chset rest c v

/-- `KernelInterface.stop_buffering`: detach every recorded handler from the
client (tolerating already-removed handlers), clear the handler dict,
discard buffered messages, clear the owner key. -/
def KernelInterface.stop_buffering (k : KernelInterface) : KernelInterface :=
  let c := k.buffer_handlers.foldl
    (fun c p => { c with handlers := removeHandler c.handlers p }) k.client
  { k with client := c, buffer_handlers := [], buffer := [], buffer_for_key := none }

/-- `KernelInterface.start_buffering(session_key)`: record the owner key,
then register one fresh `partial(buffer_msg, channel)` handler per channel
on the client and in the handler dict.  Note: it does not touch
`self.buffer` nor detach previously registered handlers. -/
def KernelInterface.start_buffering (k : KernelInterface) (session_key : String) :
    KernelInterface :=
  let k0 := { k with buffer_for_key := some session_key }
  [Channel.shell, Channel.iopub, Channel.stdin].foldl
    (fun kk ch =>
      let h := kk.nextHandlerId
      { kk with
        client := { kk.client with handlers := kk.client.handlers ++ [(ch, h)] }
        buffer_handlers := chset kk.buffer_handlers ch h
        nextHandlerId := h + 1 }) k0

/-- `KernelInterface.get_buffer`: capture buffer and owner key, reset the
buffer, then `stop_buffering`, and return the captured pair. -/
def KernelInterface.get_buffer (k : KernelInterface) :
    (List (Channel × Msg) × Option String) × KernelInterface :=
  let buffer := k.buffer
  let key := k.buffer_for_key
  let k1 := { k with buffer := [] }
  ((buffer, key), k1.stop_buffering)

/-- Message delivery on a channel: every `buffer_msg` closure currently
attached for that channel appends the (channel, message) pair to the
session buffer. -/
def KernelInterface.deliver (k : KernelInterface) (ch : Channel) (m : Msg) :
    KernelInterface :=
  k.client.handlers.foldl
    (fun kk p => if p.1 == ch then { kk with buffer := kk.buffer ++ [(ch, m)] } else kk)
    k

/-- Python exceptions raised by the modelled code. -/
inductive Err
  | notFound (kernel_id : String)
  | restartTimeout
  | shutdownFailed
  | attributeError
  | keyError
deriving DecidableEq

/-- The tail of `KernelInterface.shutdown` after the branch on `now`:
`self.client.close()`, `self.manager.cleanup()`, `self.stop_buffering()`. -/
def shutdownFinish (k : KernelInterface) : KernelInterface :=
  let k1 := { k with client := { k.client with closed := true } }
  let k2 := { k1 with manager := { k1.manager with cleaned := true } }
  k2.stop_buffering

/-- `KernelInterface.shutdown(now)`: kill when immediate, otherwise ask the
client for a graceful `shutdown_or_terminate` (whose failure, modelled by
`gracefulOk = false`, propagates as an exception); only on normal
completion of that branch do close/cleanup/stop-buffering run (the source
has no try/finally). -/
def KernelInterface.shutdown (k : KernelInterface) (now gracefulOk : Bool) :
    Option Err × KernelInterface :=
  if now then
    let k1 := { k with manager := { k.manager with killed := true } }
    (none, shutdownFinish k1)
  else if gracefulOk then
    (none, shutdownFinish k)
  else
    (some Err.shutdownFailed, k)

/-- `_handle_kernel_died` body applied to the popped kernel:
`kernel.client.close()`, `kernel.manager.cleanup()`. -/
def KernelInterface.deadTeardown (k : KernelInterface) : KernelInterface :=
  let k1 := { k with client := { k.client with closed := true } }
  { k1 with manager := { k1.manager with cleaned := true } }

/-- The configurable traits of `MappingKernelManager` used by the modelled
operations. -/
structure Config where
  cull_idle_timeout : Int
  cull_interval : Int
  cull_busy : Bool
  cull_connected : Bool
  buffer_offline_messages : Bool
  kernel_info_timeout : Int

/-- `MappingKernelManager` state: the `_kernels` map, the
`_kernel_connections` side table (declared at class level and never
written by any method in the source), the process-wide
`last_kernel_activity`, and the per-type prometheus gauge
`KERNEL_CURRENTLY_RUNNING_TOTAL`. -/
structure Registry where
  kernels : List (String × KernelInterface)
  kernel_connections : List (String × Int)
  last_kernel_activity : Int
  metric : List (String × Int)
deriving DecidableEq

/-- `__contains__` / `_check_kernel_id`-style membership. -/
def Registry.contains (r : Registry) (kid : String) : Bool :=
  acontains r.kernels kid

/-- `get_kernel` (total variant returning an option). -/
def Registry.getKernel (r : Registry) (kid : String) : Option KernelInterface :=
  alookup r.kernels kid

/-- Current value of the per-type running-kernel gauge. -/
def getMetric (r : Registry) (t : String) : Int :=
  (alookup r.metric t).getD 0

/-- `KERNEL_CURRENTLY_RUNNING_TOTAL.labels(type=t).inc()`. -/
def incMetric (r : Registry) (t : String) : Registry :=
  { r with metric := aset r.metric t (getMetric r t + 1) }

/-- `KERNEL_CURRENTLY_RUNNING_TOTAL.labels(type=t).dec()`. -/
def decMetric (r : Registry) (t : String) : Registry :=
  { r with metric := aset r.metric t (getMetric r t - 1) }

/-- Kernel-name defaulting in `start_kernel`: `None` becomes
`pyimport/kernel`, a bare name gains the `spec/` prefix. -/
def normalizeKernelName : Option String → String
  | none => "pyimport/kernel"
  | some n => if n.contains '/' then n else "spec/" ++ n

/-- `_start_kernel(kernel_id, kernel_type)`: construct a fresh
`KernelInterface` and bind it in `_kernels` (the watcher and dead-callback
registration have no effect on the modelled state). -/
def startKernelInner (r : Registry) (kid : String) (kernel_type : String) (now : Int) :
    Registry :=
  { r with kernels := aset r.kernels kid (freshKernel kernel_type now) }

/-- The fresh-identifier path of `start_kernel`: `_start_kernel` followed by
the per-type gauge increment. -/
def startKernelNew (r : Registry) (kid : String) (kernel_name : Option String) (now : Int) :
    Registry :=
  let ktype := normalizeKernelName kernel_name
  let r1 := startKernelInner r kid ktype now
  incMetric r1 ktype

/-- `self._kernels.pop(kernel_id)`: the popped kernel and the registry
without the binding, or `none` when the key is absent. -/
def Registry.popKernel (r : Registry) (kid : String) :
    Option (KernelInterface × Registry) :=
  match alookup r.kernels kid with
  | none => none
  | some k => some (k, { r with kernels := aerase r.kernels kid })

/-- `shutdown_kernel(kernel_id, now=False)`: 404 on unknown id, otherwise
pop the entry first, then run the kernel's (graceful) shutdown; only when
that completes normally are `last_kernel_activity` and the gauge updated.
Note the source ignores its own `now` parameter and always calls
`kernel.shutdown()` graceful. -/
def shutdownKernel (r : Registry) (kid : String) (gracefulOk : Bool) (now : Int) :
    Option Err × Registry :=
  if r.contains kid then
    match r.popKernel kid with
    | none => (some (Err.notFound kid), r)
    | some (kernel, r1) =>
      match kernel.shutdown false gracefulOk with
      | (some e, _) => (some e, r1)
      | (none, _) =>
        let r2 := { r1 with last_kernel_activity := now }
        (none, decMetric r2 kernel.kernel_type)
  else
    (some (Err.notFound kid), r)

/-- `restart_kernel(kernel_id)`: check the id, shut the existing kernel down
in place (the registry aliases the mutated object), then re-run
`_start_kernel` under the same id bounded by `kernel_info_timeout`
(`timedOut` selects the `gen.TimeoutError` path, which decrements the
gauge and re-raises).  The map entry is never removed on any path. -/
def restartKernel (r : Registry) (kid : String) (gracefulOk timedOut : Bool) (now : Int) :
    Option Err × Registry :=
  if r.contains kid then
    match r.getKernel kid with
    | none => (some (Err.notFound kid), r)
    | some kernel =>
      match kernel.shutdown false gracefulOk with
      | (some e, k1) => (some e, { r with kernels := aset r.kernels kid k1 })
      | (none, k1) =>
        let r1 := { r with kernels := aset r.kernels kid k1 }
        if timedOut then
          (some Err.restartTimeout, decMetric r1 kernel.kernel_type)
        else
          (none, startKernelInner r1 kid kernel.kernel_type now)
  else
    (some (Err.notFound kid), r)

/-- `notify_connect`: increment the kernel's connection counter when the id
is known, otherwise do nothing. -/
def notifyConnect (r : Registry) (kid : String) : Registry :=
  if r.contains kid then
    { r with kernels :=
        aupdate r.kernels kid (fun k => { k with n_connections := k.n_connections + 1 }) }
  else r

/-- `notify_disconnect`: decrement the kernel's connection counter when the
id is known (unconditionally, with no lower bound), otherwise do nothing. -/
def notifyDisconnect (r : Registry) (kid : String) : Registry :=
  if r.contains kid then
    { r with kernels :=
        aupdate r.kernels kid (fun k => { k with n_connections := k.n_connections - 1 }) }
  else r

/-- The JSON-safe model built by `kernel_model`. -/
structure KernelModel where
  id : String
  name : String
  last_activity : Option Int
  execution_state : String
  connections : Int
deriving DecidableEq

/-- `kernel_model(kernel_id)` as a partial lookup (the 404 on an unknown id
cannot fire on ids taken from the map itself). -/
def Registry.kernelModel (r : Registry) (kid : String) : Option KernelModel :=
  (alookup r.kernels kid).map (fun k =>
    { id := kid
      name := k.kernel_type
      last_activity := k.last_activity
      execution_state := k.execution_state
      connections := k.n_connections })

/-- `list_kernels()`: one model per key of `_kernels`. -/
def Registry.listKernels (r : Registry) : List KernelModel :=
  (r.kernels.map Prod.fst).filterMap r.kernelModel

/-- `MappingKernelManager.start_buffering(kernel_id, session_key, channels)`:
when offline buffering is disabled the supplied streams are closed and the
registry is untouched; otherwise check the id (404 when unknown), clear the
kernel's previous buffering state, and start buffering for the new key. -/
def Registry.start_buffering (cfg : Config) (r : Registry) (kid : String)
    (session_key : String) : Option Err × Registry :=
  if !cfg.buffer_offline_messages then (none, r)
  else if r.contains kid then
    let ks := aupdate r.kernels kid (fun k => (k.stop_buffering).start_buffering session_key)
    (none, { r with kernels := ks })
  else (some (Err.notFound kid), r)

/-- The three eligibility criteria computed by `cull_kernel_if_idle`
(lines 493-502): idle duration strictly above the timeout; busy-culling
enabled or not busy; connected-culling enabled or zero connections read
from the `_kernel_connections` side table. -/
def cullEligible (cfg : Config) (r : Registry) (now : Int) (kid : String)
    (kernel : KernelInterface) : Bool :=
  match kernel.last_activity with
  | none => false
  | some la =>
    let dt_idle := now - la
    let is_idle_time := dt_idle > cfg.cull_idle_timeout
    let is_idle_execute := cfg.cull_busy || !(kernel.execution_state == "busy")
    let connections := (alookup r.kernel_connections kid).getD 0
    let is_idle_connected := cfg.cull_connected || connections == 0
    is_idle_time && is_idle_execute && is_idle_connected

/-- `cull_kernel_if_idle(kernel_id)`: fetch the kernel (a `KeyError` models
the unguarded dict access), evaluate `kernel.kernel_name` for the debug log
line 492 — an `AttributeError` when the attribute does not exist on
`KernelInterface` — and only then evaluate eligibility and fire the
fire-and-forget `kernel.shutdown()` (which does not remove the map
entry). -/
def cullKernelIfIdle (cfg : Config) (r : Registry) (now : Int) (kid : String) :
    Option Err × Registry :=
  match alookup r.kernels kid with
  | none => (some Err.keyError, r)
  | some kernel =>
    if KernelInterface.hasAttr "kernel_name" then
      if cullEligible cfg r now kid kernel then
        let k1 := (kernel.shutdown false true).2
        (none, { r with kernels := aset r.kernels kid k1 })
      else (none, r)
    else (some Err.attributeError, r)

/-- `cull_kernels`: snapshot the key list, evaluate each kernel, and log and
continue past any per-kernel exception. -/
def cullKernels (cfg : Config) (r : Registry) (now : Int) : Registry :=
  (r.kernels.map Prod.fst).foldl
    (fun acc kid => (cullKernelIfIdle cfg acc now kid).2) r

/-- `_handle_kernel_died(kernel_id)`: pop the entry (a `KeyError` when the
id is already gone), close its client and clean up its process, and
*increment* the per-type gauge.  The torn-down kernel object is returned
for inspection. -/
def handleKernelDied (r : Registry) (kid : String) :
    Option Err × Registry × Option KernelInterface :=
  match r.popKernel kid with
  | none => (some Err.keyError, r, none)
  | some (kernel, r1) =>
    (none, incMetric r1 kernel.kernel_type, some kernel.deadTeardown)

/-- Number of registry entries whose kernel has the given type. -/
def typeCount (r : Registry) (t : String) : Int :=
  ((r.kernels.filter (fun p => p.2.kernel_type == t)).length : Int)

/-- The registry before any kernel was started. -/
def emptyRegistry : Registry :=
  { kernels := [], kernel_connections := [], last_kernel_activity := 0, metric := [] }

/-- The registry-level operations a request handler (or the culler) can
perform, with the time and outcome parameters each needs. -/
inductive Op
  | start (kid : String) (kernel_name : Option String) (now : Int)
  | stop (kid : String) (gracefulOk : Bool) (now : Int)
  | restart (kid : String) (gracefulOk timedOut : Bool) (now : Int)
  | died (kid : String)
  | cullPass (now : Int)
  | connect (kid : String)
  | disconnect (kid : String)
deriving DecidableEq

/-- One operation applied to the registry (errors are reported to the
caller and leave the returned state as modelled above).  `start` with a
known id is the reuse path of `start_kernel`; with a fresh id it is the
generated-uuid path. -/
def applyOp (cfg : Config) (r : Registry) : Op → Registry
  | Op.start kid kn now => if r.contains kid then r else startKernelNew r kid kn now
  | Op.stop kid g now => (shutdownKernel r kid g now).2
  | Op.restart kid g t now => (restartKernel r kid g t now).2
  | Op.died kid => (handleKernelDied r kid).2.1
  | Op.cullPass now => cullKernels cfg r now
  | Op.connect kid => notifyConnect r kid
  | Op.disconnect kid => notifyDisconnect r kid

/-- A whole operation sequence run from the empty registry. -/
def runOps (cfg : Config) (ops : List Op) : Registry :=
  ops.foldl (applyOp cfg) emptyRegistry

/-- Whether one operation makes the given identifier alive, keeps it, or
removes it: `start` binds it, `stop` and a death unbind it, and nothing
else — in particular a cull pass — changes the bound set. -/
def aliveStep (kid : String) (alive : Bool) : Op → Bool
  | Op.start k _ _ => alive || (k == kid)
  | Op.stop k _ _ => alive && !(k == kid)
  | Op.died k => alive && !(k == kid)
  | _ => alive

/-- The identifiers started and not since stopped or dead, per the spec's
description of the live set. -/
def aliveAfter (ops : List Op) (kid : String) : Bool :=
  ops.foldl (fun b op => aliveStep kid b op) false

/-- Connection-notification calls in isolation. -/
inductive NotifyOp
  | connect (kid : String)
  | disconnect (kid : String)
deriving DecidableEq

/-- Apply one notification. -/
def applyNotify (r : Registry) : NotifyOp → Registry
  | NotifyOp.connect kid => notifyConnect r kid
  | NotifyOp.disconnect kid => notifyDisconnect r kid

/-- Apply a sequence of notifications. -/
def applyNotifies (r : Registry) (ops : List NotifyOp) : Registry :=
  ops.foldl applyNotify r

/-- Net effect of one notification on one session's counter. -/
def notifyDelta (kid : String) : NotifyOp → Int
  | NotifyOp.connect k => if k == kid then 1 else 0
  | NotifyOp.disconnect k => if k == kid then -1 else 0

/-- Net effect of a notification sequence on one session's counter. -/
def netCount (kid : String) (ops : List NotifyOp) : Int :=
  (ops.map (notifyDelta kid)).sum

/-- The idle-cull scenario configuration of the spec: idle timeout 60s,
poll interval 1s, busy- and connected-culling disabled. -/
def cfgScenario : Config :=
  { cull_idle_timeout := 60
    cull_interval := 1
    cull_busy := false
    cull_connected := false
    buffer_offline_messages := true
    kernel_info_timeout := 60 }

/-- A kernel whose last activity was at time 0 and whose execution state is
`idle`, with zero connections. -/
def kernelIdle : KernelInterface :=
  { freshKernel "pyimport/kernel" 0 with execution_state := "idle" }

/-- A registry holding exactly the session `k1` (gauge at 1, as after one
`start_kernel`). -/
def regScenario : Registry :=
  { kernels := [("k1", kernelIdle)]
    kernel_connections := []
    last_kernel_activity := 0
    metric := [("pyimport/kernel", 1)] }

/-- `regScenario` with the `k1` entry popped. -/
def regScenarioPopped : Registry :=
  { regScenario with kernels := [] }

/-- A kernel in the middle of a buffering episode: one message buffered for
owner `oldkey` and one handler attached on the shell channel. -/
def kernelBuffering : KernelInterface :=
  { kernel_type := "pyimport/kernel"
    n_connections := 0
    execution_state := "idle"
    last_activity := some 0
    client := { handlers := [(Channel.shell, 0)], closed := false }
    manager := { killed := false, cleaned := false, interrupted := false }
    buffer_for_key := some "oldkey"
    buffer := [(Channel.iopub, "oldmsg")]
    buffer_handlers := [(Channel.shell, 0)]
    nextHandlerId := 1 }

/-- A start-then-stop operation sequence on one identifier. -/
def opsStartStop : List Op :=
  [Op.start "a" none 0, Op.stop "a" true 5]

/-- Three connects followed by one disconnect, the spec's connection-count
scenario. -/
def notifySeqScenario : List NotifyOp :=
  [NotifyOp.connect "k1", NotifyOp.connect "k1", NotifyOp.connect "k1",
   NotifyOp.disconnect "k1"]

/-! ## Helper lemmas about the dict model -/

theorem alookup_aset {α : Type} (l : List (String × α)) (k k' : String) (v : α) :
    alookup (aset l k v) k' = if k == k' then some v else alookup l k' := by
  induction l with
  | nil => simp [aset, alookup]
  | cons p rest ih =>
    obtain ⟨a, b⟩ := p
    by_cases h : a = k <;> by_cases h2 : a = k' <;> by_cases h3 : k = k' <;>
      simp_all [aset, alookup]

theorem alookup_aerase {α : Type} (l : List (String × α)) (k k' : String) :
    alookup (aerase l k) k' = if k == k' then none else alookup l k' := by
  induction l with
  | nil => simp [aerase, alookup]
  | cons p rest ih =>
    obtain ⟨a, b⟩ := p
    by_cases h : a = k <;> by_cases h2 : a = k' <;> by_cases h3 : k = k' <;>
      simp_all [aerase, alookup, List.filter_cons]

theorem alookup_aupdate {α : Type} (l : List (String × α)) (k k' : String) (f : α → α) :
    alookup (aupdate l k f) k' = if k == k' then (alookup l k').map f else alookup l k' := by
  induction l with
  | nil => simp [aupdate, alookup]
  | cons p rest ih =>
    obtain ⟨a, b⟩ := p
    by_cases h : a = k <;> by_cases h2 : a = k' <;> by_cases h3 : k = k' <;>
      simp_all [aupdate, alookup]

theorem acontains_aset {α : Type} (l : List (String × α)) (k k' : String) (v : α) :
    acontains (aset l k v) k' = (acontains l k' || (k == k')) := by
  by_cases h : k = k' <;> simp [acontains, alookup_aset, h]

theorem acontains_aerase {α : Type} (l : List (String × α)) (k k' : String) :
    acontains (aerase l k) k' = (acontains l k' && !(k == k')) := by
  by_cases h : k = k' <;> simp [acontains, alookup_aerase, h]

theorem acontains_aupdate {α : Type} (l : List (String × α)) (k k' : String) (f : α → α) :
    acontains (aupdate l k f) k' = acontains l k' := by
  by_cases h : k = k' <;> simp [acontains, alookup_aupdate, h]

theorem alookup_isSome_iff_mem {α : Type} (l : List (String × α)) (kid : String) :
    (alookup l kid).isSome = true ↔ kid ∈ l.map Prod.fst := by
  induction l with
  | nil => simp [alookup]
  | cons p rest ih =>
    obtain ⟨a, b⟩ := p
    by_cases h : a = kid
    · subst h
      simp [alookup]
    · have hb : (a == kid) = false := by simp [h]
      simp only [alookup, hb, Bool.false_eq_true, if_false, List.map_cons, List.mem_cons]
      rw [ih]
      constructor
      · exact fun hm => Or.inr hm
      · rintro (hEq | hm)
        · exact absurd hEq.symm h
        · exact hm

theorem aerase_of_not_mem {α : Type} (l : List (String × α)) (k : String)
    (h : k ∉ l.map Prod.fst) : aerase l k = l := by
  induction l with
  | nil => rfl
  | cons p rest ih =>
    obtain ⟨a, b⟩ := p
    simp only [List.map_cons, List.mem_cons] at h
    push_neg at h
    have hb : (a == k) = false := by simp [Ne.symm h.1]
    calc aerase ((a, b) :: rest) k = (a, b) :: aerase rest k := by
          simp [aerase, List.filter_cons, hb]
      _ = (a, b) :: rest := by rw [ih h.2]

/-! ## Lemmas about culling, listing and the operation step -/

theorem hasAttr_kernel_name_false : KernelInterface.hasAttr "kernel_name" = false := by
  decide

theorem cullKernelIfIdle_snd (cfg : Config) (r : Registry) (now : Int) (kid : String) :
    (cullKernelIfIdle cfg r now kid).2 = r := by
  rw [cullKernelIfIdle]
  cases alookup r.kernels kid with
  | none => rfl
  | some k => simp [hasAttr_kernel_name_false]

theorem cullKernels_foldl (cfg : Config) (now : Int) (ids : List String) :
    ∀ r : Registry, ids.foldl (fun acc kid => (cullKernelIfIdle cfg acc now kid).2) r = r := by
  induction ids with
  | nil => intro r; rfl
  | cons x xs ih =>
    intro r
    simp only [List.foldl_cons]
    rw [cullKernelIfIdle_snd]
    exact ih r

theorem cullKernels_eq (cfg : Config) (r : Registry) (now : Int) :
    cullKernels cfg r now = r := by
  rw [cullKernels]
  exact cullKernels_foldl cfg now (r.kernels.map Prod.fst) r

theorem listKernels_mem (r : Registry) (kid : String) :
    (∃ m ∈ r.listKernels, m.id = kid) ↔ r.contains kid = true := by
  constructor
  · rintro ⟨m, hm, hid⟩
    rw [Registry.listKernels, List.mem_filterMap] at hm
    obtain ⟨x, hx, hfx⟩ := hm
    rw [Registry.kernelModel] at hfx
    cases hk : alookup r.kernels x with
    | none => rw [hk] at hfx; simp at hfx
    | some k =>
      rw [hk] at hfx
      simp only [Option.map_some'] at hfx
      have hm2 := Option.some.inj hfx
      have hidx : m.id = x := by rw [← hm2]
      rw [Registry.contains, acontains, ← hid, hidx, hk]
      rfl
  · intro hc
    rw [Registry.contains, acontains] at hc
    obtain ⟨k, hk⟩ := Option.isSome_iff_exists.1 hc
    refine ⟨{ id := kid, name := k.kernel_type, last_activity := k.last_activity,
              execution_state := k.execution_state, connections := k.n_connections },
            ?_, rfl⟩
    rw [Registry.listKernels, List.mem_filterMap]
    refine ⟨kid, ?_, ?_⟩
    · exact (alookup_isSome_iff_mem r.kernels kid).1 (by rw [hk]; rfl)
    · rw [Registry.kernelModel, hk]
      rfl

theorem popKernel_of_lookup (r : Registry) (kid : String) (k : KernelInterface)
    (hk : alookup r.kernels kid = some k) :
    r.popKernel kid = some (k, { r with kernels := aerase r.kernels kid }) := by
  rw [Registry.popKernel, hk]

theorem popKernel_of_not_contains (r : Registry) (kid : String)
    (h : ¬ r.contains kid = true) : r.popKernel kid = none := by
  rw [Registry.popKernel]
  rw [Registry.contains, acontains, Option.isSome_iff_exists] at h
  push_neg at h
  cases hl : alookup r.kernels kid with
  | none => rfl
  | some kk => exact absurd hl (h kk)

theorem shutdownKernel_kernels (r : Registry) (kid : String) (g : Bool) (t : Int) :
    ((shutdownKernel r kid g t).2).kernels
      = if r.contains kid = true then aerase r.kernels kid else r.kernels := by
  by_cases h : r.contains kid = true
  · obtain ⟨kk, hk⟩ := Option.isSome_iff_exists.1 h
    rw [shutdownKernel, if_pos h, popKernel_of_lookup r kid kk hk, if_pos h]
    rcases hsd : kk.shutdown false g with ⟨e, k1⟩
    cases e <;> simp [hsd, decMetric]
  · rw [shutdownKernel, if_neg h, if_neg h]

theorem handleKernelDied_kernels (r : Registry) (kid : String) :
    ((handleKernelDied r kid).2.1).kernels
      = if r.contains kid = true then aerase r.kernels kid else r.kernels := by
  by_cases h : r.contains kid = true
  · obtain ⟨kk, hk⟩ := Option.isSome_iff_exists.1 h
    rw [handleKernelDied, popKernel_of_lookup r kid kk hk, if_pos h]
    simp [incMetric]
  · rw [handleKernelDied, popKernel_of_not_contains r kid h, if_neg h]

theorem startKernelNew_contains (r : Registry) (kid : String) (kn : Option String)
    (now : Int) (x : String) :
    (startKernelNew r kid kn now).contains x = (r.contains x || (kid == x)) := by
  simp only [startKernelNew, startKernelInner, incMetric, Registry.contains]
  rw [acontains_aset]

theorem restartKernel_contains (r : Registry) (kid : String) (g t : Bool) (now : Int)
    (x : String) :
    ((restartKernel r kid g t now).2).contains x = r.contains x := by
  by_cases h : r.contains kid = true
  · obtain ⟨kk, hk⟩ := Option.isSome_iff_exists.1 h
    have hgk : r.getKernel kid = some kk := hk
    rw [restartKernel, if_pos h, hgk]
    rcases hsd : kk.shutdown false g with ⟨e, k1⟩
    cases hx : (kid == x) with
    | false =>
      cases e <;> cases t <;>
        simp [hsd, Registry.contains, acontains_aset, decMetric, startKernelInner, hx]
    | true =>
      have hkx : kid = x := by simpa using hx
      subst hkx
      cases e <;> cases t <;>
        simp [hsd, Registry.contains, acontains_aset, decMetric, startKernelInner, hx] <;>
          simpa [Registry.contains] using h
  · rw [restartKernel, if_neg h]

theorem notifyConnect_contains (r : Registry) (kid x : String) :
    (notifyConnect r kid).contains x = r.contains x := by
  rw [notifyConnect]
  by_cases h : r.contains kid = true
  · rw [if_pos h]
    simp [Registry.contains, acontains_aupdate]
  · rw [if_neg h]

theorem notifyDisconnect_contains (r : Registry) (kid x : String) :
    (notifyDisconnect r kid).contains x = r.contains x := by
  rw [notifyDisconnect]
  by_cases h : r.contains kid = true
  · rw [if_pos h]
    simp [Registry.contains, acontains_aupdate]
  · rw [if_neg h]

theorem applyOp_contains (cfg : Config) (r : Registry) (op : Op) (kid : String) :
    (applyOp cfg r op).contains kid = aliveStep kid (r.contains kid) op := by
  cases op with
  | start k kn now =>
    simp only [applyOp, aliveStep]
    by_cases h : r.contains k = true
    · rw [if_pos h]
      cases hx : (k == kid)
      · simp [hx]
      · have hkx : k = kid := by simpa using hx
        subst hkx
        simp [h]
    · rw [if_neg h, startKernelNew_contains]
  | stop k g now =>
    simp only [applyOp, aliveStep]
    show acontains ((shutdownKernel r k g now).2).kernels kid = _
    rw [shutdownKernel_kernels]
    by_cases h : r.contains k = true
    · rw [if_pos h, acontains_aerase]
      rfl
    · rw [if_neg h]
      cases hx : (k == kid)
      · simp [hx, Registry.contains]
      · have hkx : k = kid := by simpa using hx
        subst hkx
        simp only [Registry.contains, Bool.not_eq_true] at h
        simp [hx, h]
  | restart k g t now =>
    simp only [applyOp, aliveStep]
    exact restartKernel_contains r k g t now kid
  | died k =>
    simp only [applyOp, aliveStep]
    show acontains ((handleKernelDied r k).2.1).kernels kid = _
    rw [handleKernelDied_kernels]
    by_cases h : r.contains k = true
    · rw [if_pos h, acontains_aerase]
      rfl
    · rw [if_neg h]
      cases hx : (k == kid)
      · simp [hx, Registry.contains]
      · have hkx : k = kid := by simpa using hx
        subst hkx
        simp only [Registry.contains, Bool.not_eq_true] at h
        simp [hx, h]
  | cullPass now =>
    simp only [applyOp, aliveStep, cullKernels_eq]
  | connect k =>
    simp only [applyOp, aliveStep]
    exact notifyConnect_contains r k kid
  | disconnect k =>
    simp only [applyOp, aliveStep]
    exact notifyDisconnect_contains r k kid

theorem runOps_contains_aux (cfg : Config) (kid : String) (ops : List Op) :
    ∀ r : Registry,
      ((ops.foldl (applyOp cfg) r).contains kid)
        = ops.foldl (fun b op => aliveStep kid b op) (r.contains kid) := by
  induction ops with
  | nil => intro r; rfl
  | cons op rest ih =>
    intro r
    simp only [List.foldl_cons]
    rw [ih, applyOp_contains]

/-! ## Lemmas about connection notifications -/

theorem applyNotifies_cons (r : Registry) (op : NotifyOp) (ops : List NotifyOp) :
    applyNotifies r (op :: ops) = applyNotifies (applyNotify r op) ops := rfl

theorem netCount_cons (kid : String) (op : NotifyOp) (ops : List NotifyOp) :
    netCount kid (op :: ops) = notifyDelta kid op + netCount kid ops := by
  simp [netCount]

theorem notifyConnect_lookup_self (r : Registry) (kid : String) (k : KernelInterface)
    (hk : alookup r.kernels kid = some k) :
    alookup (notifyConnect r kid).kernels kid
      = some { k with n_connections := k.n_connections + 1 } := by
  have h : r.contains kid = true := by rw [Registry.contains, acontains, hk]; rfl
  rw [notifyConnect, if_pos h]
  show alookup (aupdate r.kernels kid _) kid = _
  rw [alookup_aupdate]
  simp [hk]

theorem notifyConnect_lookup_other (r : Registry) (kid x : String)
    (hx : (kid == x) = false) :
    alookup (notifyConnect r kid).kernels x = alookup r.kernels x := by
  rw [notifyConnect]
  by_cases h : r.contains kid = true
  · rw [if_pos h]
    show alookup (aupdate r.kernels kid _) x = _
    rw [alookup_aupdate, hx]
    simp
  · rw [if_neg h]

theorem notifyDisconnect_lookup_self (r : Registry) (kid : String) (k : KernelInterface)
    (hk : alookup r.kernels kid = some k) :
    alookup (notifyDisconnect r kid).kernels kid
      = some { k with n_connections := k.n_connections - 1 } := by
  have h : r.contains kid = true := by rw [Registry.contains, acontains, hk]; rfl
  rw [notifyDisconnect, if_pos h]
  show alookup (aupdate r.kernels kid _) kid = _
  rw [alookup_aupdate]
  simp [hk]

theorem notifyDisconnect_lookup_other (r : Registry) (kid x : String)
    (hx : (kid == x) = false) :
    alookup (notifyDisconnect r kid).kernels x = alookup r.kernels x := by
  rw [notifyDisconnect]
  by_cases h : r.contains kid = true
  · rw [if_pos h]
    show alookup (aupdate r.kernels kid _) x = _
    rw [alookup_aupdate, hx]
    simp
  · rw [if_neg h]

theorem applyNotifies_net (kid : String) (ops : List NotifyOp) :
    ∀ (r : Registry) (k : KernelInterface), alookup r.kernels kid = some k →
      (alookup (applyNotifies r ops).kernels kid).map (fun x => x.n_connections)
        = some (k.n_connections + netCount kid ops) := by
  induction ops with
  | nil =>
    intro r k hk
    simp [applyNotifies, netCount, hk]
  | cons op rest ih =>
    intro r k hk
    rw [applyNotifies_cons, netCount_cons]
    cases op with
    | connect kid2 =>
      by_cases hx : kid2 = kid
      · subst hx
        have h1 := notifyConnect_lookup_self r kid2 k hk
        have h2 := ih _ _ h1
        rw [show applyNotify r (NotifyOp.connect kid2) = notifyConnect r kid2 from rfl, h2]
        simp only [notifyDelta, beq_self_eq_true, if_true, Option.some.injEq]
        omega
      · have h1 : alookup (notifyConnect r kid2).kernels kid = some k := by
          rw [notifyConnect_lookup_other r kid2 kid (by simp [hx])]
          exact hk
        have h2 := ih _ _ h1
        rw [show applyNotify r (NotifyOp.connect kid2) = notifyConnect r kid2 from rfl, h2]
        simp only [notifyDelta, Option.some.injEq]
        rw [if_neg (by simp [hx])]
        omega
    | disconnect kid2 =>
      by_cases hx : kid2 = kid
      · subst hx
        have h1 := notifyDisconnect_lookup_self r kid2 k hk
        have h2 := ih _ _ h1
        rw [show applyNotify r (NotifyOp.disconnect kid2) = notifyDisconnect r kid2 from rfl, h2]
        simp only [notifyDelta, beq_self_eq_true, if_true, Option.some.injEq]
        omega
      · have h1 : alookup (notifyDisconnect r kid2).kernels kid = some k := by
          rw [notifyDisconnect_lookup_other r kid2 kid (by simp [hx])]
          exact hk
        have h2 := ih _ _ h1
        rw [show applyNotify r (NotifyOp.disconnect kid2) = notifyDisconnect r kid2 from rfl, h2]
        simp only [notifyDelta, Option.some.injEq]
        rw [if_neg (by simp [hx])]
        omega

/-! ## Lemmas about handler removal and buffering -/

theorem mem_of_mem_removeHandler :
    ∀ (l : List (Channel × Nat)) (x y : Channel × Nat), x ∈ removeHandler l y → x ∈ l := by
  intro l
  induction l with
  | nil => intro x y h; simp [removeHandler] at h
  | cons z rest ih =>
    intro x y h
    rw [removeHandler] at h
    split at h
    · exact List.mem_cons_of_mem _ h
    · rcases List.mem_cons.1 h with h1 | h1
      · exact h1 ▸ List.mem_cons_self _ _
      · exact List.mem_cons_of_mem _ (ih x y h1)

theorem nodup_removeHandler :
    ∀ (l : List (Channel × Nat)) (y : Channel × Nat), l.Nodup → (removeHandler l y).Nodup := by
  intro l
  induction l with
  | nil => intro y h; simp [removeHandler]
  | cons z rest ih =>
    intro y h
    rcases List.nodup_cons.1 h with ⟨hz, hr⟩
    rw [removeHandler]
    split
    · exact hr
    · exact List.nodup_cons.2
        ⟨fun hm => hz (mem_of_mem_removeHandler rest z y hm), ih y hr⟩

theorem not_mem_removeHandler_self :
    ∀ (l : List (Channel × Nat)) (y : Channel × Nat), l.Nodup → y ∉ removeHandler l y := by
  intro l
  induction l with
  | nil => intro y h; simp [removeHandler]
  | cons z rest ih =>
    intro y h
    rcases List.nodup_cons.1 h with ⟨hz, hr⟩
    rw [removeHandler]
    split
    · next heq =>
        have hzy : z = y := by simpa using heq
        subst hzy
        exact hz
    · next hne =>
        intro hm
        rcases List.mem_cons.1 hm with h1 | h1
        · have hzy : z ≠ y := by simpa using hne
          exact hzy h1.symm
        · exact ih y hr h1

theorem foldRemove_not_mem (bh : List (Channel × Nat)) :
    ∀ (c : Client) (x : Channel × Nat), x ∉ c.handlers →
      x ∉ (bh.foldl (fun c p => { c with handlers := removeHandler c.handlers p }) c).handlers := by
  induction bh with
  | nil => intro c x h; exact h
  | cons q qs ih =>
    intro c x h
    simp only [List.foldl_cons]
    exact ih _ x (fun hm => h (mem_of_mem_removeHandler _ _ _ hm))

theorem foldRemove_removes (bh : List (Channel × Nat)) :
    ∀ c : Client, c.handlers.Nodup →
      ∀ p ∈ bh,
        p ∉ (bh.foldl (fun c p => { c with handlers := removeHandler c.handlers p }) c).handlers := by
  induction bh with
  | nil => intro c h p hp; simp at hp
  | cons q qs ih =>
    intro c h p hp
    simp only [List.foldl_cons]
    rcases List.mem_cons.1 hp with h1 | h1
    · subst h1
      exact foldRemove_not_mem qs _ p (not_mem_removeHandler_self _ _ h)
    · exact ih _ (nodup_removeHandler _ _ h) p h1

theorem foldRemove_closed (bh : List (Channel × Nat)) :
    ∀ c : Client,
      (bh.foldl (fun c p => { c with handlers := removeHandler c.handlers p }) c).closed
        = c.closed := by
  induction bh with
  | nil => intro c; rfl
  | cons q qs ih => intro c; simp only [List.foldl_cons]; exact ih _

theorem start_buffering_buffer (k : KernelInterface) (key : String) :
    (k.start_buffering key).buffer = k.buffer := by
  simp [KernelInterface.start_buffering, List.foldl_cons, List.foldl_nil]

theorem start_buffering_key (k : KernelInterface) (key : String) :
    (k.start_buffering key).buffer_for_key = some key := by
  simp [KernelInterface.start_buffering, List.foldl_cons, List.foldl_nil]

theorem start_buffering_handlers (k : KernelInterface) (key : String) :
    (k.start_buffering key).client.handlers
      = k.client.handlers
        ++ [(Channel.shell, k.nextHandlerId), (Channel.iopub, k.nextHandlerId + 1),
            (Channel.stdin, k.nextHandlerId + 2)] := by
  simp [KernelInterface.start_buffering, List.foldl_cons, List.foldl_nil, List.append_assoc]

/-! ## Lemmas about the metric and the type count -/

theorem getMetric_incMetric (r : Registry) (t : String) :
    getMetric (incMetric r t) t = getMetric r t + 1 := by
  simp [incMetric, getMetric, alookup_aset]

theorem filter_aerase_length (l : List (String × KernelInterface)) (kid : String)
    (k : KernelInterface) :
    ∀ (hk : alookup l kid = some k) (hnd : (l.map Prod.fst).Nodup),
      ((aerase l kid).filter (fun p => p.2.kernel_type == k.kernel_type)).length + 1
        = (l.filter (fun p => p.2.kernel_type == k.kernel_type)).length := by
  induction l with
  | nil => intro hk hnd; simp [alookup] at hk
  | cons p rest ih =>
    obtain ⟨a, b⟩ := p
    intro hk hnd
    simp only [List.map_cons, List.nodup_cons] at hnd
    by_cases h : a = kid
    · subst h
      have hbk : b = k := by simpa [alookup] using hk
      subst hbk
      have h1 : aerase rest a = rest := aerase_of_not_mem rest a hnd.1
      have he : aerase ((a, b) :: rest) a = rest := by
        simp [aerase, List.filter_cons] at h1 ⊢
        exact h1
      rw [he]
      simp [List.filter_cons]
    · have hk2 : alookup rest kid = some k := by simpa [alookup, h] using hk
      have he : aerase ((a, b) :: rest) kid = (a, b) :: aerase rest kid := by
        have hb : (a == kid) = false := by simp [h]
        simp [aerase, List.filter_cons, hb]
      rw [he]
      by_cases hp : (b.kernel_type == k.kernel_type) = true
      · simp only [List.filter_cons, hp, if_true, List.length_cons]
        have := ih hk2 hnd.2
        omega
      · simp only [List.filter_cons, hp]
        exact ih hk2 hnd.2

theorem shutdownFinish_closed (k : KernelInterface) :
    (shutdownFinish k).client.closed = true := by
  simp [shutdownFinish, KernelInterface.stop_buffering, foldRemove_closed]

/-! ## The claims -/

/-- Claim C2: every invocation of `cull_kernel_if_idle` on a registered
session raises `AttributeError` before any eligibility criterion can act
(line 492 reads `kernel.kernel_name`, while `KernelInterface` only defines
`kernel_type`), leaving the registry untouched; `cull_kernels` catches the
exception per kernel and continues, so a cull pass never shuts down or
removes any kernel — it returns the registry unchanged. -/
theorem claim_C2_culler_attribute_error (cfg : Config) (r : Registry) (now : Int)
    (kid : String) :
    (∀ k : KernelInterface, alookup r.kernels kid = some k →
        cullKernelIfIdle cfg r now kid = (some Err.attributeError, r))
    ∧ cullKernels cfg r now = r
    ∧ KernelInterface.hasAttr "kernel_name" = false
    ∧ KernelInterface.hasAttr "kernel_type" = true := by
  refine ⟨?_, cullKernels_eq cfg r now, by decide, by decide⟩
  intro k hk
  simp only [cullKernelIfIdle, hk, hasAttr_kernel_name_false]
  simp

/-- Witness for C2 at the concrete idle-cull scenario registry. -/
theorem claim_C2_culler_attribute_error_witness :
    cullKernelIfIdle cfgScenario regScenario 120 "k1" = (some Err.attributeError, regScenario) :=
  (claim_C2_culler_attribute_error cfgScenario regScenario 120 "k1").1 kernelIdle (by decide)

/-- Claim C1 (code bug): in the spec scenario (idle timeout 60s,
`last_activity` 120s in the past, execution state `idle`, 0 connections,
`cull_busy=False`, `cull_connected=False`) all three eligibility criteria of
lines 497-502 evaluate to true, yet the cull tick raises `AttributeError` on
`kernel.kernel_name` (line 492) before reaching them, so the session is not
shut down: after the whole cull pass it is still registered and unchanged,
contradicting the claimed shutdown-iff-eligibility behaviour. -/
theorem claim_C1_cull_scenario_not_culled :
    cullEligible cfgScenario regScenario 120 "k1" kernelIdle = true
    ∧ cullKernelIfIdle cfgScenario regScenario 120 "k1" = (some Err.attributeError, regScenario)
    ∧ (cullKernels cfgScenario regScenario 120).contains "k1" = true
    ∧ alookup (cullKernels cfgScenario regScenario 120).kernels "k1" = some kernelIdle := by
  decide

/-- Claim C5: after any operation sequence from an empty registry,
`list_kernels` contains a model for an identifier exactly when that
identifier was started and not since removed by `shutdown_kernel` or by a
kernel death; a cull pass removes nothing (it returns the registry exactly
as it was — no session is ever culled, see C2), so the culled set is empty,
and removal by stop/death happens before the teardown completes — there is
no stopped-but-present state. -/
theorem claim_C5_listSessions_live_set (cfg : Config) (ops : List Op) (kid : String) :
    ((∃ m ∈ (runOps cfg ops).listKernels, m.id = kid) ↔ aliveAfter ops kid = true)
    ∧ (∀ (r : Registry) (now : Int), cullKernels cfg r now = r) := by
  constructor
  · rw [listKernels_mem]
    rw [show runOps cfg ops = ops.foldl (applyOp cfg) emptyRegistry from rfl]
    rw [runOps_contains_aux cfg kid ops emptyRegistry]
    exact Iff.rfl
  · intro r now
    exact cullKernels_eq cfg r now

/-- Witness for C5: starting and then stopping `a` leaves no model for `a`
in the listing. -/
theorem claim_C5_listSessions_live_set_witness :
    ¬ ∃ m ∈ (runOps cfgScenario opsStartStop).listKernels, m.id = "a" := by
  intro hex
  have h := (claim_C5_listSessions_live_set cfgScenario opsStartStop "a").1.mp hex
  exact absurd h (by decide)

/-- Claim C4: `shutdown_kernel` on an unknown identifier fails with exactly
the 404 `NotFound` classification and changes nothing; on a known identifier
the entry is popped from the map before the kernel teardown runs, so both
the intermediate registry visible while the teardown is in flight and the
final registry lack the identifier. -/
theorem claim_C4_stopSession_notfound_and_removal (r : Registry) (kid : String)
    (g : Bool) (t : Int) :
    (r.contains kid = false → shutdownKernel r kid g t = (some (Err.notFound kid), r))
    ∧ (∀ (k : KernelInterface) (r1 : Registry), r.popKernel kid = some (k, r1) →
        r1.contains kid = false ∧ ((shutdownKernel r kid g t).2).contains kid = false) := by
  constructor
  · intro h
    rw [shutdownKernel, if_neg (by simp [h])]
  · intro k r1 hpop
    rw [Registry.popKernel] at hpop
    cases hl : alookup r.kernels kid with
    | none => rw [hl] at hpop; exact absurd hpop (by simp)
    | some kk =>
      rw [hl] at hpop
      have hinj := Option.some.inj hpop
      have hr1 : ({ r with kernels := aerase r.kernels kid } : Registry) = r1 :=
        congrArg Prod.snd hinj
      constructor
      · rw [← hr1, Registry.contains]
        show acontains (aerase r.kernels kid) kid = false
        rw [acontains_aerase]
        simp
      · have hc : r.contains kid = true := by rw [Registry.contains, acontains, hl]; rfl
        show acontains ((shutdownKernel r kid g t).2).kernels kid = false
        rw [shutdownKernel_kernels, if_pos hc, acontains_aerase]
        simp

/-- Witness for C4: unknown id gives `NotFound` untouched; the popped and the
final registry both lack `k1`. -/
theorem claim_C4_stopSession_witness :
    shutdownKernel regScenario "missing" true 5 = (some (Err.notFound "missing"), regScenario)
    ∧ regScenarioPopped.contains "k1" = false
    ∧ ((shutdownKernel regScenario "k1" true 5).2).contains "k1" = false := by
  refine ⟨?_, ?_, ?_⟩
  · exact (claim_C4_stopSession_notfound_and_removal regScenario "missing" true 5).1 (by decide)
  · exact ((claim_C4_stopSession_notfound_and_removal regScenario "k1" true 5).2
      kernelIdle regScenarioPopped (by decide)).1
  · exact ((claim_C4_stopSession_notfound_and_removal regScenario "k1" true 5).2
      kernelIdle regScenarioPopped (by decide)).2

/-- Counterexample to C3: a timed-out restart of `k1` raises the
restart-timeout classification, yet `k1` is still bound in the registry and
`list_kernels` still reports it — the identifier is not left unbound as the
claim states. -/
theorem claim_C3_counterexample_still_bound :
    (restartKernel regScenario "k1" true true 0).1 = some Err.restartTimeout
    ∧ ((restartKernel regScenario "k1" true true 0).2).contains "k1" = true
    ∧ (∃ m ∈ ((restartKernel regScenario "k1" true true 0).2).listKernels, m.id = "k1") := by
  refine ⟨by decide, by decide, by decide⟩

/-- Claim C3 (amended): when the restart exceeds `kernel_info_timeout`,
`restart_kernel` fails with the restart-timeout classification and decrements
the per-type gauge, but the identifier remains bound in the registry — to the
old, already shut down kernel object; `restart_kernel` never removes the map
entry on any path. -/
theorem claim_C3_amended_timeout_keeps_binding (r : Registry) (kid : String)
    (k : KernelInterface) (now : Int) (hk : alookup r.kernels kid = some k) :
    (restartKernel r kid true true now).1 = some Err.restartTimeout
    ∧ ((restartKernel r kid true true now).2).contains kid = true
    ∧ alookup ((restartKernel r kid true true now).2).kernels kid
        = some ((k.shutdown false true).2)
    ∧ getMetric (restartKernel r kid true true now).2 k.kernel_type
        = getMetric r k.kernel_type - 1 := by
  have hc : r.contains kid = true := by rw [Registry.contains, acontains, hk]; rfl
  have hc2 : acontains r.kernels kid = true := hc
  have hgk : r.getKernel kid = some k := hk
  refine ⟨?_, ?_, ?_, ?_⟩ <;>
    simp [restartKernel, hc, hc2, hgk, KernelInterface.shutdown, decMetric, getMetric,
      Registry.contains, acontains_aset, alookup_aset]

/-- Witness for C3 (amended) at the concrete scenario registry. -/
theorem claim_C3_amended_witness :
    ((restartKernel regScenario "k1" true true 0).2).contains "k1" = true
    ∧ getMetric (restartKernel regScenario "k1" true true 0).2 "pyimport/kernel" = 0 := by
  have h := claim_C3_amended_timeout_keeps_binding regScenario "k1" kernelIdle 0 (by decide)
  refine ⟨h.2.1, ?_⟩
  have h4 := h.2.2.2
  rw [show kernelIdle.kernel_type = "pyimport/kernel" from rfl] at h4
  rw [h4]
  decide

/-- Counterexample to C6: a single `notify_disconnect` on a freshly started
session (0 connections) drives the counter to -1, below the lower bound of 0
the claim asserts for every notify sequence. -/
theorem claim_C6_counterexample_negative_count :
    (alookup (notifyDisconnect regScenario "k1").kernels "k1").map (fun k => k.n_connections)
      = some (-1)
    ∧ ((-1 : Int) ≥ 0) = False := by
  refine ⟨by decide, by simp⟩

/-- Claim C6 (amended): along any sequence of notify calls, the counter of a
registered session equals its initial value plus the connects minus the
disconnects addressed to it — an integer with no lower bound, because
`notify_disconnect` decrements unconditionally on a known id; it stays ≥ 0
only while disconnects never outnumber connects.  Calls naming an unknown
identifier are silent no-ops. -/
theorem claim_C6_amended_connection_counter (r : Registry) (kid : String)
    (k : KernelInterface) (ops : List NotifyOp)
    (hk : alookup r.kernels kid = some k) :
    (alookup (applyNotifies r ops).kernels kid).map (fun x => x.n_connections)
      = some (k.n_connections + netCount kid ops)
    ∧ (∀ (r2 : Registry) (kid2 : String), r2.contains kid2 = false →
        notifyConnect r2 kid2 = r2 ∧ notifyDisconnect r2 kid2 = r2) := by
  refine ⟨applyNotifies_net kid ops r k hk, ?_⟩
  intro r2 kid2 h2
  constructor
  · rw [notifyConnect, if_neg (by simp [h2])]
  · rw [notifyDisconnect, if_neg (by simp [h2])]

/-- Witness for C6 (amended): three connects and one disconnect on `k1` give
a counter of 2, the spec's connection-counting scenario. -/
theorem claim_C6_amended_witness :
    (alookup (applyNotifies regScenario notifySeqScenario).kernels "k1").map
        (fun x => x.n_connections) = some 2 := by
  have h := (claim_C6_amended_connection_counter regScenario "k1" kernelIdle
    notifySeqScenario (by decide)).1
  rw [h]
  decide

/-- Counterexample to C7: when the graceful `shutdown_or_terminate` request
raises, `KernelInterface.shutdown` propagates the error with the client still
open, the process not cleaned up and buffering still active — there is no
try/finally, so the all-exit-paths guarantee fails on the failure path. -/
theorem claim_C7_counterexample_failure_path :
    kernelBuffering.shutdown false false = (some Err.shutdownFailed, kernelBuffering)
    ∧ kernelBuffering.client.closed = false
    ∧ kernelBuffering.manager.cleaned = false
    ∧ kernelBuffering.buffer_handlers ≠ []
    ∧ kernelBuffering.buffer_for_key ≠ none := by
  decide

/-- Claim C7 (amended): `shutdown` closes the client, cleans up the process
and stops buffering on the immediate path and on the graceful path that
completes normally; when the graceful request fails, the exception
propagates first and none of those cleanup steps run. -/
theorem claim_C7_amended_shutdown_paths (k : KernelInterface) (g : Bool) :
    ((k.shutdown true g).1 = none
      ∧ (k.shutdown true g).2.client.closed = true
      ∧ (k.shutdown true g).2.manager.cleaned = true
      ∧ (k.shutdown true g).2.manager.killed = true
      ∧ (k.shutdown true g).2.buffer_handlers = []
      ∧ (k.shutdown true g).2.buffer = []
      ∧ (k.shutdown true g).2.buffer_for_key = none)
    ∧ ((k.shutdown false true).1 = none
      ∧ (k.shutdown false true).2.client.closed = true
      ∧ (k.shutdown false true).2.manager.cleaned = true
      ∧ (k.shutdown false true).2.buffer_handlers = []
      ∧ (k.shutdown false true).2.buffer = []
      ∧ (k.shutdown false true).2.buffer_for_key = none)
    ∧ k.shutdown false false = (some Err.shutdownFailed, k) := by
  refine ⟨⟨rfl, ?_, rfl, rfl, rfl, rfl, rfl⟩, ⟨rfl, ?_, rfl, rfl, rfl, rfl⟩, rfl⟩
  · exact shutdownFinish_closed { k with manager := { k.manager with killed := true } }
  · exact shutdownFinish_closed k

/-- Witness for C7 (amended): the immediate path closes the client of the
buffering kernel; the failing graceful path returns it unchanged. -/
theorem claim_C7_amended_witness :
    (kernelBuffering.shutdown true false).2.client.closed = true
    ∧ kernelBuffering.shutdown false false = (some Err.shutdownFailed, kernelBuffering) :=
  ⟨((claim_C7_amended_shutdown_paths kernelBuffering false).1).2.1,
   (claim_C7_amended_shutdown_paths kernelBuffering false).2.2⟩

/-- Claim C8: `get_buffer` returns the buffered (channel, message) sequence
together with its owner key; afterwards the buffer is empty, the per-channel
handler dict is cleared, every previously recorded handler is detached from
the client (given distinct registrations), and the owner key is cleared.
When no buffering was active it returns an empty buffer and an absent key. -/
theorem claim_C8_takeBuffer (k : KernelInterface) :
    (k.get_buffer).1 = (k.buffer, k.buffer_for_key)
    ∧ (k.get_buffer).2.buffer = []
    ∧ (k.get_buffer).2.buffer_handlers = []
    ∧ (k.get_buffer).2.buffer_for_key = none
    ∧ (k.client.handlers.Nodup →
        ∀ p ∈ k.buffer_handlers, p ∉ (k.get_buffer).2.client.handlers)
    ∧ (k.buffer = [] ∧ k.buffer_for_key = none → (k.get_buffer).1 = ([], none)) := by
  refine ⟨rfl, rfl, rfl, rfl, ?_, ?_⟩
  · intro hnd p hp
    exact foldRemove_removes k.buffer_handlers k.client hnd p hp
  · rintro ⟨h1, h2⟩
    simp [KernelInterface.get_buffer, h1, h2]

/-- Witness for C8 at the buffering kernel: the old buffer and key come back
and the old handler is detached. -/
theorem claim_C8_takeBuffer_witness :
    (kernelBuffering.get_buffer).1 = ([(Channel.iopub, "oldmsg")], some "oldkey")
    ∧ (Channel.shell, 0) ∉ (kernelBuffering.get_buffer).2.client.handlers := by
  have h := claim_C8_takeBuffer kernelBuffering
  refine ⟨?_, ?_⟩
  · rw [h.1]
    decide
  · exact h.2.2.2.2.1 (by decide) (Channel.shell, 0) (by decide)

/-- Counterexample to C9: `KernelInterface.start_buffering` on a kernel with
an earlier buffering episode keeps the previously buffered message in the
buffer and leaves the earlier handler attached to the client — contrary to
the claim, it does not first clear previous buffering state. -/
theorem claim_C9_counterexample_no_clearing :
    (kernelBuffering.start_buffering "newkey").buffer = [(Channel.iopub, "oldmsg")]
    ∧ (Channel.shell, 0) ∈ (kernelBuffering.start_buffering "newkey").client.handlers := by
  decide

/-- Claim C9 (amended): `KernelInterface.start_buffering(ownerKey)` records
the owner key and registers one fresh handler per shell/iopub/stdin channel,
but performs no clearing itself: previously buffered messages and previously
attached client handlers survive it.  The clearing the claim describes lives
one level up, in `MappingKernelManager.start_buffering`, which calls
`stop_buffering` before delegating — after the wrapper the kernel's buffer
is empty. -/
theorem claim_C9_amended_start_buffering (k : KernelInterface) (key : String)
    (cfg : Config) (r : Registry) (kid : String) (k0 : KernelInterface)
    (hb : cfg.buffer_offline_messages = true)
    (hk : alookup r.kernels kid = some k0) :
    (k.start_buffering key).buffer_for_key = some key
    ∧ (k.start_buffering key).buffer = k.buffer
    ∧ (k.start_buffering key).client.handlers
        = k.client.handlers
          ++ [(Channel.shell, k.nextHandlerId), (Channel.iopub, k.nextHandlerId + 1),
              (Channel.stdin, k.nextHandlerId + 2)]
    ∧ (Registry.start_buffering cfg r kid key).1 = none
    ∧ alookup ((Registry.start_buffering cfg r kid key).2).kernels kid
        = some ((k0.stop_buffering).start_buffering key)
    ∧ ((k0.stop_buffering).start_buffering key).buffer = [] := by
  have hc : r.contains kid = true := by rw [Registry.contains, acontains, hk]; rfl
  refine ⟨start_buffering_key k key, start_buffering_buffer k key,
          start_buffering_handlers k key, ?_, ?_, ?_⟩
  · rw [Registry.start_buffering, if_neg (by rw [hb]; simp), if_pos hc]
  · rw [Registry.start_buffering, if_neg (by rw [hb]; simp), if_pos hc]
    show alookup (aupdate r.kernels kid _) kid = _
    rw [alookup_aupdate]
    simp [hk]
  · rw [start_buffering_buffer]
    rfl

/-- Witness for C9 (amended): the registry wrapper rebinds `k1` to the
stopped-then-restarted-buffering kernel. -/
theorem claim_C9_amended_witness :
    alookup ((Registry.start_buffering cfgScenario regScenario "k1" "s1").2).kernels "k1"
      = some ((kernelIdle.stop_buffering).start_buffering "s1") :=
  (claim_C9_amended_start_buffering kernelIdle "s1" cfgScenario regScenario "k1"
    kernelIdle rfl (by decide)).2.2.2.2.1

/-- Counterexample to C10's accounting: the death of the only
`pyimport/kernel` session takes the gauge from 1 to 2 while the registry
count of that type drops from 1 to 0, so the gauge's excess over the number
of registered sessions grows by two, not by one as the claim states. -/
theorem claim_C10_counterexample_excess_two :
    getMetric (handleKernelDied regScenario "k1").2.1 "pyimport/kernel"
        - typeCount (handleKernelDied regScenario "k1").2.1 "pyimport/kernel"
      = (getMetric regScenario "pyimport/kernel" - typeCount regScenario "pyimport/kernel") + 2
    ∧ ¬ (getMetric (handleKernelDied regScenario "k1").2.1 "pyimport/kernel"
          - typeCount (handleKernelDied regScenario "k1").2.1 "pyimport/kernel"
        = (getMetric regScenario "pyimport/kernel" - typeCount regScenario "pyimport/kernel")
          + 1) := by
  decide

/-- Claim C10 (amended): the death handler removes the entry from the map,
closes its client, cleans up its process, and increments — does not
decrement — the per-type running-kernel gauge by one; since the registry
simultaneously loses one session of that type, the gauge ends up exceeding
the number of registered sessions of the type by two more than before the
death. -/
theorem claim_C10_amended_death_metric (r : Registry) (kid : String)
    (k : KernelInterface) (hk : alookup r.kernels kid = some k)
    (hnd : (r.kernels.map Prod.fst).Nodup) :
    (handleKernelDied r kid).1 = none
    ∧ ((handleKernelDied r kid).2.1).contains kid = false
    ∧ (handleKernelDied r kid).2.2 = some k.deadTeardown
    ∧ k.deadTeardown.client.closed = true
    ∧ k.deadTeardown.manager.cleaned = true
    ∧ getMetric (handleKernelDied r kid).2.1 k.kernel_type = getMetric r k.kernel_type + 1
    ∧ typeCount (handleKernelDied r kid).2.1 k.kernel_type = typeCount r k.kernel_type - 1
    ∧ getMetric (handleKernelDied r kid).2.1 k.kernel_type
          - typeCount (handleKernelDied r kid).2.1 k.kernel_type
        = (getMetric r k.kernel_type - typeCount r k.kernel_type) + 2 := by
  have hpop := popKernel_of_lookup r kid k hk
  have hdied : handleKernelDied r kid
      = (none, incMetric { r with kernels := aerase r.kernels kid } k.kernel_type,
         some k.deadTeardown) := by
    rw [handleKernelDied, hpop]
  have h6 : getMetric (handleKernelDied r kid).2.1 k.kernel_type
      = getMetric r k.kernel_type + 1 := by
    rw [hdied]
    exact getMetric_incMetric { r with kernels := aerase r.kernels kid } k.kernel_type
  have h7 : typeCount (handleKernelDied r kid).2.1 k.kernel_type
      = typeCount r k.kernel_type - 1 := by
    rw [hdied]
    have hlen := filter_aerase_length r.kernels kid k hk hnd
    simp only [typeCount, incMetric]
    omega
  refine ⟨?_, ?_, ?_, rfl, rfl, h6, h7, ?_⟩
  · rw [hdied]
  · rw [hdied]
    show acontains (aerase r.kernels kid) kid = false
    rw [acontains_aerase]
    simp
  · rw [hdied]
  · omega

/-- Witness for C10 (amended): concrete gauge and registry count after the
death of `k1`. -/
theorem claim_C10_amended_witness :
    getMetric (handleKernelDied regScenario "k1").2.1 "pyimport/kernel" = 2
    ∧ typeCount (handleKernelDied regScenario "k1").2.1 "pyimport/kernel" = 0 := by
  have h := claim_C10_amended_death_metric regScenario "k1" kernelIdle (by decide) (by decide)
  constructor
  · have h6 := h.2.2.2.2.2.1
    rw [show kernelIdle.kernel_type = "pyimport/kernel" from rfl] at h6
    rw [h6]
    decide
  · have h7 := h.2.2.2.2.2.2.1
    rw [show kernelIdle.kernel_type = "pyimport/kernel" from rfl] at h7
    rw [h7]
    decide

end JupyterKernelManager
